import Mathlib

/-! Shallow embedding of the Elasticsearch provisioning scripts
`src/init_es.py` (the v1 runner, namespace `InitEs`) and `src/init_es_v2.py`
(the v2 runner, namespace `InitEsV2`).

The behaviour of the remote engine during one run is modelled explicitly as a
`World` value holding the response to each HTTP call the scripts can issue.
Every index-level write (index creation, index deletion) performed by a run
is recorded in a trace, so claims about issued write calls are statements
about that trace. Outcomes are encoded exactly as the scripts encode them:
a boolean per step and an integer exit code from `main`; the spec-level
outcome `Skipped` is success with an empty write trace, `Created` is success
with a single create in the trace, and `Recreated` is success with a delete
followed by a create. -/

/-- An index-level write call issued against the search engine. -/
inductive WriteCall where
  | deleteIndex
  | createIndex
deriving DecidableEq

/-- The decoded `properties` object of a mapping response: each field name
paired with the value of its `type` attribute (`none` when the object of the field carries no `type` key, as for an object field declared only through
nested `properties`). -/
abbrev Props := List (String × Option String)

/-- An HTTP response to `GET /{index}/_mapping`: status code plus the
decoded `properties` object of the target index. -/
structure MappingResp where
  status : Nat
  props : Props

/-- The engine-side behaviour observed by one run of a script: the response
to each HTTP call the scripts can issue. `none` for `headStatus` or for a
mapping response models a `requests.exceptions.RequestException` raised by
the call; `templStatus` gives the status of the template upsert POST for
each template name, and `ready` tells whether the readiness gate succeeded
before the reconciliation steps ran. -/
structure World where
  headStatus : Option Nat
  mappingResp : Option MappingResp
  deleteStatus : Nat
  createStatus : Nat
  createBody : String
  templStatus : String → Nat
  finalMappingResp : Option MappingResp
  ready : Bool

/-- Does `hay` start with `needle` (helper for the python substring test). -/
def matchesAt (needle hay : List Char) : Bool :=
  match needle, hay with
  | [], _ => true
  | _ :: _, [] => false
  | a :: as, b :: bs => a == b && matchesAt as bs

/-- The python substring containment test `needle in hay`. -/
def containsSeq (needle hay : List Char) : Bool :=
  matchesAt needle hay ||
    match hay with
    | [] => false
    | _ :: rest => containsSeq needle rest

/-- Rendering of an optional string by a python f-string: `None` becomes
the text `"None"`, a string is inserted verbatim. -/
def pyStr : Option String → String
  | none => "None"
  | some s => s

/-- The python expression `sep.join(parts)`. -/
def joinSep (sep : String) : List String → String
  | [] => ""
  | [e] => e
  | e :: rest => e ++ sep ++ joinSep sep rest

/-- The python expression `props.get(field, ...).get("type")` over the modelled
`properties` object. -/
def typeOf (props : Props) (field : String) : Option String :=
  match props.lookup field with
  | none => none
  | some t => t

/-- Whether the `requests.put` call creating the index succeeded, i.e.
reported status 200 or 201 (both scripts use this check). -/
def createSucceeded (w : World) : Bool :=
  w.createStatus == 200 || w.createStatus == 201

/-- The fixed sleep between readiness poll attempts: `time.sleep(5)` in
`wait_for_elasticsearch` of both scripts. -/
def pollInterval : Nat := 5

/-- The per-attempt client timeout of the health probe: the `timeout=15`
argument of the `session.get` call in `wait_for_elasticsearch` of both
scripts (`src/init_es.py` line 27, `src/init_es_v2.py` line 31). -/
def probeAttemptTimeout : Nat := 15

/-- The polling loop of `wait_for_elasticsearch` (identical in
`src/init_es.py` lines 22-37 and `src/init_es_v2.py` lines 25-40).
`probe j = (d, ok)` says the `j`-th health probe call took `d` seconds of
wall-clock time and returned status 200 iff `ok` (an exception or a non-200
status is `ok = false`). `t` is the elapsed time `time.time() - start`.
The result pairs readiness with the elapsed time at the moment of success
(`true`) or at the timeout `RuntimeError` (`false`). -/
def waitLoop (probe : Nat → Nat × Bool) (timeout i t : Nat) : Bool × Nat :=
  if _h : t < timeout then
    if (probe i).2 then (true, t + (probe i).1)
    else waitLoop probe timeout (i + 1) (t + (probe i).1 + pollInterval)
  else (false, t)
termination_by timeout - t
decreasing_by
  have h5 : pollInterval = 5 := rfl
  omega

/-- `wait_for_elasticsearch` of both scripts: poll the cluster health
endpoint from elapsed time zero until it reports 200 or `timeout` seconds
have elapsed. -/
def wait_for_elasticsearch (probe : Nat → Nat × Bool) (timeout : Nat) : Bool × Nat :=
  waitLoop probe timeout 0 0

/-- The template upsert loop shared by `create_search_templates` of both
scripts (`src/init_es.py` lines 284-296, `src/init_es_v2.py` lines
353-365): POST each template in the given order; a response status outside
200/201 stops the batch at once. Returns the overall boolean result, the
names actually POSTed in order, and the name of the failing template, if
any (the name surfaced by the failure message). -/
def create_search_templates (resp : String → Nat) :
    List String → Bool × List String × Option String
  | [] => (true, [], none)
  | name :: rest =>
    if resp name = 200 ∨ resp name = 201 then
      let r := create_search_templates resp rest
      (r.1, name :: r.2.1, r.2.2)
    else (false, [name], some name)

namespace InitEsV2

/-- `get_mapping_properties` of `src/init_es_v2.py` lines 43-51: the
`properties` object of the mapping response, or the empty object on a
non-200 status or a request exception. -/
def get_mapping_properties (r : Option MappingResp) : Props :=
  match r with
  | none => []
  | some resp => if resp.status = 200 then resp.props else []

/-- The `errors` list built by `mapping_is_expected` of `src/init_es_v2.py`
lines 62-66: one entry per fingerprint field whose observed `type` differs
from the expected one (`centroid` must be `geo_point`, `address_parts` must
be `nested`). -/
def fingerprint_errors (props : Props) : List String :=
  (if typeOf props "centroid" = some "geo_point" then []
   else ["centroid.type expected geo_point, got " ++ pyStr (typeOf props "centroid")]) ++
  (if typeOf props "address_parts" = some "nested" then []
   else ["address_parts.type expected nested, got " ++ pyStr (typeOf props "address_parts")])

/-- `mapping_is_expected` of `src/init_es_v2.py` lines 54-70: the
comparator. Returns the compatibility verdict together with the reason
string the script reports. -/
def mapping_is_expected (r : Option MappingResp) : Bool × String :=
  if (get_mapping_properties r).isEmpty then (false, "empty mapping")
  else if (fingerprint_errors (get_mapping_properties r)).isEmpty then (true, "ok")
  else (false, joinSep "; " (fingerprint_errors (get_mapping_properties r)))

/-- `delete_index` of `src/init_es_v2.py` lines 73-78: statuses 200, 202
and 404 count as success, anything else is a failure. -/
def delete_index (status : Nat) : Bool :=
  status == 200 || status == 202 || status == 404

/-- `create_index` of `src/init_es_v2.py` lines 81-251, with the trace of
index writes it issues. The HEAD probe reports the index present exactly
when it returns status 200; any other status, and a request exception,
falls through to plain creation. When the index is present: with the force
flag the index is deleted and (on delete success) recreated without ever
consulting the comparator; without the force flag the comparator decides
between skipping (success, no writes) and failing (no writes). -/
def create_index (w : World) (force_recreate : Bool) : Bool × List WriteCall :=
  if w.headStatus = some 200 then
    if force_recreate then
      if delete_index w.deleteStatus then
        (createSucceeded w, [WriteCall.deleteIndex, WriteCall.createIndex])
      else (false, [WriteCall.deleteIndex])
    else if (mapping_is_expected w.mappingResp).1 then (true, [])
    else (false, [])
  else (createSucceeded w, [WriteCall.createIndex])

/-- The template names of `src/init_es_v2.py` lines 347-351, in source
order. -/
def templates : List String :=
  ["address_structured_v2", "address_fallback_v2", "address_universal_v2"]

/-- `main` of `src/init_es_v2.py` lines 376-388: readiness gate, index
reconciliation, template upserts, then the final `mapping_is_expected`
validation against the freshly fetched mapping; the result is the process
exit code paired with the trace of index writes. `ready = false` models the
readiness `RuntimeError`, which escapes `main` and makes the interpreter
exit nonzero before any write. -/
def main (w : World) (force_recreate : Bool) : Nat × List WriteCall :=
  if w.ready then
    let r := create_index w force_recreate
    if r.1 then
      if (create_search_templates w.templStatus templates).1 then
        if (mapping_is_expected w.finalMappingResp).1 then (0, r.2) else (1, r.2)
      else (1, r.2)
    else (1, r.2)
  else (1, [])

end InitEsV2

namespace InitEs

/-- `create_index` of `src/init_es.py` lines 39-160, with the trace of
index writes it issues. If the HEAD probe reports status 200 the function
returns success at once, performing no comparison and no write at all;
otherwise it issues the creation PUT, and treats statuses 200 and 201, as
well as a 400 whose body contains `already exists`, as success. -/
def create_index (w : World) : Bool × List WriteCall :=
  if w.headStatus = some 200 then (true, [])
  else if createSucceeded w then (true, [WriteCall.createIndex])
  else if w.createStatus = 400 ∧ containsSeq "already exists".toList w.createBody.toList then
    (true, [WriteCall.createIndex])
  else (false, [WriteCall.createIndex])

/-- The template names of `src/init_es.py` lines 278-282, in source
order. -/
def templates : List String :=
  ["address_places_search", "name_search", "universal_name_address_search"]

/-- `main` of `src/init_es.py` lines 298-317: readiness gate, index
creation, template upserts — and no post-creation mapping validation of any
kind. The whole body runs inside a `try` whose `except` returns 1, so a
readiness failure (`ready = false`) yields exit code 1 with no writes. -/
def main (w : World) : Nat × List WriteCall :=
  if w.ready then
    let r := create_index w
    if r.1 then
      if (create_search_templates w.templStatus templates).1 then (0, r.2) else (1, r.2)
    else (1, r.2)
  else (1, [])

end InitEs

/-- A string with a nonempty left part is nonempty. -/
theorem append_ne_empty (s t : String) (h : s.length ≠ 0) : s ++ t ≠ "" := by
  intro he
  have h2 : (s ++ t).length = 0 := by rw [he]; rfl
  rw [String.length_append] at h2
  omega

/-- A nonempty string has nonzero length. -/
theorem length_ne_zero_of_ne_empty (s : String) (h : s ≠ "") : s.length ≠ 0 := by
  intro h0
  apply h
  apply String.ext
  have hd : s.data = [] := List.length_eq_zero.mp h0
  rw [hd]

/-- Joining a nonempty list of nonempty strings gives a nonempty string. -/
theorem joinSep_ne_empty (sep : String) : ∀ l : List String,
    l ≠ [] → (∀ e ∈ l, e ≠ "") → joinSep sep l ≠ ""
  | [], hl, _ => absurd rfl hl
  | [e], _, he => by simpa [joinSep] using he e (by simp)
  | e :: e2 :: rest, _, he => by
    show e ++ sep ++ joinSep sep (e2 :: rest) ≠ ""
    have h1 : e ≠ "" := he e (by simp)
    have h2 := length_ne_zero_of_ne_empty e h1
    apply append_ne_empty
    rw [String.length_append]
    omega

/-- Every entry of the drift error list is a nonempty string. -/
theorem fingerprint_errors_entries_ne_empty (props : Props) :
    ∀ e ∈ InitEsV2.fingerprint_errors props, e ≠ "" := by
  intro e hmem
  unfold InitEsV2.fingerprint_errors at hmem
  rcases List.mem_append.mp hmem with h | h
  · by_cases hc : typeOf props "centroid" = some "geo_point"
    · simp [hc] at h
    · simp only [hc, if_neg, List.mem_singleton, if_false] at h
      rcases List.mem_singleton.mp (by simpa [hc] using h) with rfl
      apply append_ne_empty
      decide
  · by_cases ha : typeOf props "address_parts" = some "nested"
    · simp [ha] at h
    · rcases List.mem_singleton.mp (by simpa [ha] using h) with rfl
      apply append_ne_empty
      decide

/-- When the comparator rejects, the reason string it reports is nonempty. -/
theorem mapping_reason_ne_empty (r : Option MappingResp)
    (h : (InitEsV2.mapping_is_expected r).1 = false) :
    (InitEsV2.mapping_is_expected r).2 ≠ "" := by
  unfold InitEsV2.mapping_is_expected at h ⊢
  by_cases he : (InitEsV2.get_mapping_properties r).isEmpty = true
  · simp only [he, if_true]
    decide
  · simp only [he, if_false] at h ⊢
    by_cases herr :
        (InitEsV2.fingerprint_errors (InitEsV2.get_mapping_properties r)).isEmpty = true
    · simp [herr] at h
    · simp only [herr, if_false] at h ⊢
      apply joinSep_ne_empty
      · intro hnil
        rw [hnil] at herr
        exact herr rfl
      · exact fingerprint_errors_entries_ne_empty _

/-- When the comparator accepts, both fingerprint fields carry exactly the
expected types. -/
theorem mapping_ok_fingerprint (r : Option MappingResp)
    (h : (InitEsV2.mapping_is_expected r).1 = true) :
    typeOf (InitEsV2.get_mapping_properties r) "centroid" = some "geo_point" ∧
    typeOf (InitEsV2.get_mapping_properties r) "address_parts" = some "nested" := by
  unfold InitEsV2.mapping_is_expected at h
  by_cases he : (InitEsV2.get_mapping_properties r).isEmpty = true
  · simp [he] at h
  · simp only [he, if_false] at h
    by_cases herr :
        (InitEsV2.fingerprint_errors (InitEsV2.get_mapping_properties r)).isEmpty = true
    · unfold InitEsV2.fingerprint_errors at herr
      by_cases hc : typeOf (InitEsV2.get_mapping_properties r) "centroid" = some "geo_point" <;>
        by_cases ha :
          typeOf (InitEsV2.get_mapping_properties r) "address_parts" = some "nested" <;>
        simp [hc, ha] at herr ⊢
    · simp [herr] at h

/-- When no probe ever succeeds, the polling loop reports failure, and the
elapsed time at the timeout error lies between the deadline and the
deadline plus the duration bound of the last attempt plus one polling
interval. -/
theorem waitLoop_timeout_bounds (probe : Nat → Nat × Bool) (timeout dmax : Nat)
    (hfail : ∀ j, (probe j).2 = false) (hdur : ∀ j, (probe j).1 ≤ dmax) :
    ∀ k i t, timeout - t ≤ k → t ≤ timeout + dmax + pollInterval →
      (waitLoop probe timeout i t).1 = false ∧
      timeout ≤ (waitLoop probe timeout i t).2 ∧
      (waitLoop probe timeout i t).2 ≤ timeout + dmax + pollInterval := by
  intro k
  induction k with
  | zero =>
    intro i t hk ht
    have hge : ¬ t < timeout := by omega
    rw [waitLoop, dif_neg hge]
    exact ⟨rfl, by omega, ht⟩
  | succ k ih =>
    intro i t hk ht
    by_cases h : t < timeout
    · rw [waitLoop, dif_pos h, hfail i]
      have hd := hdur i
      have h5 : pollInterval = 5 := rfl
      simp only [Bool.false_eq_true, if_false]
      exact ih (i + 1) (t + (probe i).1 + pollInterval) (by omega) (by omega)
    · rw [waitLoop, dif_neg h]
      exact ⟨rfl, by omega, ht⟩

/-- Mapping properties matching the desired fingerprint exactly. -/
def goodProps : Props := [("centroid", some "geo_point"), ("address_parts", some "nested")]

/-- Drifted mapping properties: `address_parts` observed as a plain
`object` instead of `nested`. -/
def driftProps : Props := [("centroid", some "geo_point"), ("address_parts", some "object")]

/-- A world where the index exists and its observed fingerprint has
drifted. -/
def driftWorld : World where
  headStatus := some 200
  mappingResp := some ⟨200, driftProps⟩
  deleteStatus := 200
  createStatus := 200
  createBody := ""
  templStatus := fun _ => 200
  finalMappingResp := some ⟨200, driftProps⟩
  ready := true

/-- A world where the index exists and its observed fingerprint matches
the desired one. -/
def matchWorld : World where
  headStatus := some 200
  mappingResp := some ⟨200, goodProps⟩
  deleteStatus := 200
  createStatus := 200
  createBody := ""
  templStatus := fun _ => 200
  finalMappingResp := some ⟨200, goodProps⟩
  ready := true

/-- A world where the existence probe reports the index absent and
creation succeeds. -/
def absentWorld : World where
  headStatus := some 404
  mappingResp := some ⟨200, goodProps⟩
  deleteStatus := 200
  createStatus := 200
  createBody := ""
  templStatus := fun _ => 200
  finalMappingResp := some ⟨200, goodProps⟩
  ready := true

/-- A world where the index exists, the delete responds 404 (treated as
success) and the creation PUT succeeds. -/
def forceWorld : World where
  headStatus := some 200
  mappingResp := some ⟨200, driftProps⟩
  deleteStatus := 404
  createStatus := 200
  createBody := ""
  templStatus := fun _ => 200
  finalMappingResp := some ⟨200, goodProps⟩
  ready := true

/-- A world where the index is absent, creation and template upserts all
succeed, yet the mapping observed afterwards is drifted. -/
def createdDriftWorld : World where
  headStatus := some 404
  mappingResp := some ⟨200, driftProps⟩
  deleteStatus := 200
  createStatus := 200
  createBody := ""
  templStatus := fun _ => 200
  finalMappingResp := some ⟨200, driftProps⟩
  ready := true

/-- A world modelling a lost creation race: the existence probe reported
the index absent, but the creation PUT came back 400 with an
already-exists body, and the live mapping is compatible. -/
def raceWorld : World where
  headStatus := some 404
  mappingResp := some ⟨200, goodProps⟩
  deleteStatus := 200
  createStatus := 400
  createBody := "resource_already_exists_exception: index address_places already exists"
  templStatus := fun _ => 200
  finalMappingResp := some ⟨200, goodProps⟩
  ready := true

/-- A world for a fully successful skip run: index present, fingerprint
matching before and after, templates all accepted. -/
def goodWorld : World where
  headStatus := some 200
  mappingResp := some ⟨200, goodProps⟩
  deleteStatus := 200
  createStatus := 200
  createBody := ""
  templStatus := fun _ => 200
  finalMappingResp := some ⟨200, goodProps⟩
  ready := true

/-- C1, amended: with the force flag off and the index present, a
fingerprint mismatch makes the reconciliation of the v2 runner fail with a
non-empty drift reason while issuing no write call; the v1 runner, by
contrast, performs no drift detection at all and reports success (a skip)
with no writes for any existing index, drifted or not. Neither runner ever
auto-repairs drift without the force flag. -/
theorem c1_drift_fails_without_writes (w w' : World)
    (hw : w.headStatus = some 200)
    (hdrift : (InitEsV2.mapping_is_expected w.mappingResp).1 = false)
    (hw' : w'.headStatus = some 200) :
    InitEsV2.create_index w false = (false, []) ∧
    (InitEsV2.mapping_is_expected w.mappingResp).2 ≠ "" ∧
    InitEs.create_index w' = (true, []) := by
  refine ⟨?_, mapping_reason_ne_empty _ hdrift, ?_⟩
  · simp [InitEsV2.create_index, hw, hdrift]
  · simp [InitEs.create_index, hw']

/-- C1, counterexample: on an existing index whose `address_parts` is
observed as `object` instead of `nested`, the reconciliation of the v1 runner
returns success with no writes, not the Failed outcome the claim
requires. -/
theorem c1_counterexample :
    (InitEsV2.mapping_is_expected driftWorld.mappingResp).1 = false ∧
    InitEs.create_index driftWorld = (true, []) := by
  exact ⟨by decide, by decide⟩

/-- C1, witness for the amended theorem at the concrete drifted world. -/
theorem c1_witness :
    InitEsV2.create_index driftWorld false = (false, []) ∧
    (InitEsV2.mapping_is_expected driftWorld.mappingResp).2 ≠ "" ∧
    InitEs.create_index driftWorld = (true, []) :=
  c1_drift_fails_without_writes driftWorld driftWorld rfl (by decide) rfl

/-- C2: with the force flag off and the index present with a matching
fingerprint, both runners report success without issuing any write call
(the Skipped outcome). -/
theorem c2_match_skips_without_writes (w w' : World)
    (hw : w.headStatus = some 200)
    (hok : (InitEsV2.mapping_is_expected w.mappingResp).1 = true)
    (hw' : w'.headStatus = some 200) :
    InitEsV2.create_index w false = (true, []) ∧
    InitEs.create_index w' = (true, []) := by
  constructor
  · simp [InitEsV2.create_index, hw, hok]
  · simp [InitEs.create_index, hw']

/-- C2, witness at a concrete world with a matching fingerprint. -/
theorem c2_witness :
    InitEsV2.create_index matchWorld false = (true, []) ∧
    InitEs.create_index matchWorld = (true, []) :=
  c2_match_skips_without_writes matchWorld matchWorld rfl (by decide) rfl

/-- C3: when the existence probe does not report the index present, both
runners issue exactly one create call (and no delete), and a 200/201
response to it yields success (the Created outcome). -/
theorem c3_absent_creates_exactly_once (w w' : World)
    (hw : w.headStatus ≠ some 200) (hw' : w'.headStatus ≠ some 200) :
    (InitEsV2.create_index w false).2 = [WriteCall.createIndex] ∧
    (w.createStatus = 200 ∨ w.createStatus = 201 →
      (InitEsV2.create_index w false).1 = true) ∧
    (InitEs.create_index w').2 = [WriteCall.createIndex] ∧
    (w'.createStatus = 200 ∨ w'.createStatus = 201 →
      (InitEs.create_index w').1 = true) := by
  have hv2 : InitEsV2.create_index w false = (createSucceeded w, [WriteCall.createIndex]) := by
    simp [InitEsV2.create_index, hw]
  refine ⟨by rw [hv2], ?_, ?_, ?_⟩
  · intro hs
    rw [hv2]
    rcases hs with h | h <;> simp [createSucceeded, h]
  · unfold InitEs.create_index
    rw [if_neg hw']
    by_cases h1 : createSucceeded w' = true
    · simp [h1]
    · simp only [h1, Bool.false_eq_true, if_false]
      split <;> rfl
  · intro hs
    have h1 : createSucceeded w' = true := by
      rcases hs with h | h <;> simp [createSucceeded, h]
    unfold InitEs.create_index
    rw [if_neg hw']
    simp [h1]

/-- C3, witness at a concrete world with an absent index. -/
theorem c3_witness :
    (InitEsV2.create_index absentWorld false).2 = [WriteCall.createIndex] ∧
    (InitEsV2.create_index absentWorld false).1 = true ∧
    (InitEs.create_index absentWorld).2 = [WriteCall.createIndex] ∧
    (InitEs.create_index absentWorld).1 = true := by
  have h := c3_absent_creates_exactly_once absentWorld absentWorld (by decide) (by decide)
  exact ⟨h.1, h.2.1 (Or.inl rfl), h.2.2.1, h.2.2.2 (Or.inl rfl)⟩

/-- C4: with the force flag on and the index present, the v2 runner issues
one delete, and exactly when the delete succeeds (status 200, 202, or 404,
so a not-found delete counts as success) it issues one create right after;
success of the run is exactly engine success of the create, any failure at
either step yields a failed run, the trace never holds a second write of
either kind (no restore), and the whole behaviour is independent of the
fingerprint state the comparator would see. -/
theorem c4_force_deletes_then_creates (w : World)
    (hw : w.headStatus = some 200) :
    (InitEsV2.delete_index w.deleteStatus = true →
      InitEsV2.create_index w true =
        (createSucceeded w, [WriteCall.deleteIndex, WriteCall.createIndex])) ∧
    (InitEsV2.delete_index w.deleteStatus = false →
      InitEsV2.create_index w true = (false, [WriteCall.deleteIndex])) ∧
    (w.deleteStatus = 404 → InitEsV2.delete_index w.deleteStatus = true) ∧
    (createSucceeded w = true ↔ w.createStatus = 200 ∨ w.createStatus = 201) ∧
    (∀ m, InitEsV2.create_index { w with mappingResp := m } true =
      InitEsV2.create_index w true) := by
  refine ⟨?_, ?_, ?_, ?_, ?_⟩
  · intro hd
    simp [InitEsV2.create_index, hw, hd]
  · intro hd
    simp [InitEsV2.create_index, hw, hd]
  · intro hd
    simp [InitEsV2.delete_index, hd]
  · simp [createSucceeded]
  · intro m
    simp [InitEsV2.create_index, hw, createSucceeded]

/-- C4, witness: a not-found delete response followed by a successful
create yields the Recreated outcome with exactly one delete then one
create. -/
theorem c4_witness :
    InitEsV2.create_index forceWorld true =
      (createSucceeded forceWorld, [WriteCall.deleteIndex, WriteCall.createIndex]) ∧
    createSucceeded forceWorld = true :=
  ⟨(c4_force_deletes_then_creates forceWorld rfl).1 (by decide), by decide⟩

/-- C5, amended: in the v2 runner, whenever the index reconciliation step
reported success, `main` re-runs the comparator against the freshly fetched
mapping, and a post-run fingerprint mismatch downgrades the exit code to 1;
the v1 runner performs no post-creation validation at all and can report
success while the live fingerprint is still wrong. -/
theorem c5_post_validation_downgrades_v2 (w : World) (force : Bool)
    (hcreate : (InitEsV2.create_index w force).1 = true)
    (hbad : (InitEsV2.mapping_is_expected w.finalMappingResp).1 = false) :
    (InitEsV2.main w force).1 = 1 := by
  unfold InitEsV2.main
  by_cases hr : w.ready = true
  · simp only [hr, if_true, hcreate, hbad]
    by_cases ht : (create_search_templates w.templStatus InitEsV2.templates).1 = true <;>
      simp [ht]
  · simp [hr]

/-- C5, counterexample: a v1 run whose creation step succeeded (one create
call was issued and accepted) exits with code 0 even though the comparator,
run on the state observed after creation, rejects the fingerprint — no
downgrade to a failed outcome happens. -/
theorem c5_counterexample :
    (InitEs.create_index createdDriftWorld).1 = true ∧
    (InitEs.create_index createdDriftWorld).2 = [WriteCall.createIndex] ∧
    (InitEsV2.mapping_is_expected createdDriftWorld.finalMappingResp).1 = false ∧
    (InitEs.main createdDriftWorld).1 = 0 := by
  exact ⟨by decide, by decide, by decide, by decide⟩

/-- C5, witness for the amended theorem: the v2 runner downgrades the same
situation to exit code 1. -/
theorem c5_witness :
    (InitEsV2.main createdDriftWorld false).1 = 1 :=
  c5_post_validation_downgrades_v2 createdDriftWorld false (by decide) (by decide)

/-- C6, amended: a creation PUT answered with status 400 and an
already-exists body is treated as success by the v1 runner (a skip, granted
unconditionally, with no post-validation proviso); the v2 runner instead
treats every non-200/201 creation response, an already-exists 400 included,
as a failed run. -/
theorem c6_already_exists_race (w w' : World)
    (hw : w.headStatus ≠ some 200)
    (hs : w.createStatus = 400)
    (hb : containsSeq "already exists".toList w.createBody.toList = true)
    (hw' : w'.headStatus ≠ some 200)
    (hs' : w'.createStatus = 400) :
    InitEs.create_index w = (true, [WriteCall.createIndex]) ∧
    InitEsV2.create_index w' false = (false, [WriteCall.createIndex]) := by
  constructor
  · have hcs : createSucceeded w = false := by simp [createSucceeded, hs]
    unfold InitEs.create_index
    rw [if_neg hw]
    simp only [hcs, Bool.false_eq_true, if_false]
    rw [if_pos ⟨hs, hb⟩]
  · have hcs : createSucceeded w' = false := by simp [createSucceeded, hs']
    simp [InitEsV2.create_index, hw', hcs]

/-- C6, counterexample: in the v2 runner a lost creation race (already
exists response, compatible live fingerprint) is a failed run with exit
code 1, not the Skipped success the claim requires. -/
theorem c6_counterexample :
    raceWorld.createStatus = 400 ∧
    containsSeq "already exists".toList raceWorld.createBody.toList = true ∧
    (InitEsV2.mapping_is_expected raceWorld.finalMappingResp).1 = true ∧
    InitEsV2.create_index raceWorld false = (false, [WriteCall.createIndex]) ∧
    (InitEsV2.main raceWorld false).1 = 1 := by
  exact ⟨rfl, by decide, by decide, by decide, by decide⟩

/-- C6, witness for the amended theorem at the concrete race world. -/
theorem c6_witness :
    InitEs.create_index raceWorld = (true, [WriteCall.createIndex]) ∧
    InitEsV2.create_index raceWorld false = (false, [WriteCall.createIndex]) :=
  c6_already_exists_race raceWorld raceWorld (by decide) rfl (by decide) (by decide) rfl

/-- C7: the template loop upserts in the given order; when every upsert is
accepted the whole list is posted and the batch succeeds, and when the
first rejected template is `n`, the batch stops right there — exactly the
templates before `n` plus `n` itself were posted, the earlier ones stay
applied (the loop issues no other call that could undo them), the result is
failure, and `n` is the name surfaced. -/
theorem c7_templates_stop_at_first_failure (resp : String → Nat)
    (l1 l2 : List String) (n : String)
    (hok : ∀ m ∈ l1, resp m = 200 ∨ resp m = 201)
    (hfail : ¬(resp n = 200 ∨ resp n = 201)) :
    create_search_templates resp (l1 ++ n :: l2) = (false, l1 ++ [n], some n) ∧
    ∀ ts : List String, (∀ m ∈ ts, resp m = 200 ∨ resp m = 201) →
      create_search_templates resp ts = (true, ts, none) := by
  constructor
  · induction l1 with
    | nil => simp [create_search_templates, hfail]
    | cons a l1 ih =>
      have ha : resp a = 200 ∨ resp a = 201 := hok a (by simp)
      have ih2 := ih (fun m hm => hok m (by simp [hm]))
      simp [create_search_templates, ha, ih2]
  · intro ts hts
    induction ts with
    | nil => simp [create_search_templates]
    | cons a ts ih =>
      have ha : resp a = 200 ∨ resp a = 201 := hts a (by simp)
      have ih2 := ih (fun m hm => hts m (by simp [hm]))
      simp [create_search_templates, ha, ih2]

/-- C7, witness: the middle template of the v2 list is rejected, the batch
stops there with its name surfaced; and an all-accepting engine upserts the
whole v1 list in order. -/
theorem c7_witness :
    create_search_templates
        (fun s => if s = "address_fallback_v2" then 500 else 200)
        (["address_structured_v2"] ++ "address_fallback_v2" :: ["address_universal_v2"]) =
      (false, ["address_structured_v2", "address_fallback_v2"], some "address_fallback_v2") ∧
    create_search_templates
        (fun s => if s = "address_fallback_v2" then 500 else 200) InitEs.templates =
      (true, InitEs.templates, none) := by
  have h := c7_templates_stop_at_first_failure
    (fun s => if s = "address_fallback_v2" then 500 else 200)
    ["address_structured_v2"] ["address_universal_v2"] "address_fallback_v2"
    (by decide) (by decide)
  exact ⟨h.1, h.2 InitEs.templates (by decide)⟩

/-- C8, amended: when no health probe ever succeeds, the readiness gate
fails with elapsed time at least the configured deadline, and at most the
deadline plus the duration of the final probe attempt plus one polling
interval. The claimed bound of deadline plus one polling interval alone
does not hold, because a single probe attempt may consume up to its 15
second client timeout, which exceeds the 5 second polling interval. -/
theorem c8_timeout_elapsed_bounds (probe : Nat → Nat × Bool) (timeout dmax : Nat)
    (hfail : ∀ j, (probe j).2 = false) (hdur : ∀ j, (probe j).1 ≤ dmax) :
    (wait_for_elasticsearch probe timeout).1 = false ∧
    timeout ≤ (wait_for_elasticsearch probe timeout).2 ∧
    (wait_for_elasticsearch probe timeout).2 ≤ timeout + dmax + pollInterval := by
  unfold wait_for_elasticsearch
  exact waitLoop_timeout_bounds probe timeout dmax hfail hdur timeout 0 0 (by omega) (by omega)

/-- C8, counterexample: with a deadline of 10 seconds and every probe
failing after consuming its full 15 second per-attempt budget, the gate
fails at elapsed time 20, later than deadline plus one polling interval
(15). -/
theorem c8_counterexample :
    wait_for_elasticsearch (fun _ => (probeAttemptTimeout, false)) 10 = (false, 20) ∧
    ¬((wait_for_elasticsearch (fun _ => (probeAttemptTimeout, false)) 10).2 ≤
      10 + pollInterval) := by
  have h : wait_for_elasticsearch (fun _ => (probeAttemptTimeout, false)) 10 = (false, 20) := by
    unfold wait_for_elasticsearch
    rw [waitLoop]
    norm_num [probeAttemptTimeout, pollInterval]
    rw [waitLoop]
    norm_num
  refine ⟨h, ?_⟩
  rw [h]
  norm_num [pollInterval]

/-- C8, witness for the amended theorem at the concrete failing probe. -/
theorem c8_witness :
    (wait_for_elasticsearch (fun _ => (probeAttemptTimeout, false)) 10).1 = false ∧
    10 ≤ (wait_for_elasticsearch (fun _ => (probeAttemptTimeout, false)) 10).2 ∧
    (wait_for_elasticsearch (fun _ => (probeAttemptTimeout, false)) 10).2 ≤
      10 + probeAttemptTimeout + pollInterval :=
  c8_timeout_elapsed_bounds (fun _ => (probeAttemptTimeout, false)) 10 probeAttemptTimeout
    (fun _ => rfl) (fun _ => Nat.le_refl _)

/-- C9, counterexample: the per-attempt health probe timeout is not
strictly shorter than the polling interval. -/
theorem c9_counterexample : ¬(probeAttemptTimeout < pollInterval) := by decide

/-- C9, amended: the readiness loop of both scripts probes with a
per-attempt client timeout of 15 seconds and sleeps 5 seconds between
attempts, so the per-attempt timeout is strictly longer than the polling
interval, not strictly shorter. -/
theorem c9_probe_timeout_exceeds_interval :
    probeAttemptTimeout = 15 ∧ pollInterval = 5 ∧ pollInterval < probeAttemptTimeout :=
  ⟨rfl, rfl, by decide⟩

/-- C10: in the v2 runner, `main` returns exit code 0 only if the final
validation, run against the mapping fetched at the end of the run on every
surviving path (the skip path included), accepts — so exit code 0
guarantees the live `centroid` is `geo_point` and the live `address_parts`
is `nested`. -/
theorem c10_exit_zero_needs_matching_fingerprint (w : World) (force : Bool)
    (h : (InitEsV2.main w force).1 = 0) :
    (InitEsV2.mapping_is_expected w.finalMappingResp).1 = true ∧
    typeOf (InitEsV2.get_mapping_properties w.finalMappingResp) "centroid" =
      some "geo_point" ∧
    typeOf (InitEsV2.get_mapping_properties w.finalMappingResp) "address_parts" =
      some "nested" := by
  have hok : (InitEsV2.mapping_is_expected w.finalMappingResp).1 = true := by
    by_contra hne
    have hm : (InitEsV2.mapping_is_expected w.finalMappingResp).1 = false :=
      Bool.eq_false_iff.mpr hne
    unfold InitEsV2.main at h
    by_cases hr : w.ready = true
    · simp only [hr, if_true, hm] at h
      by_cases hc : (InitEsV2.create_index w force).1 = true <;>
        by_cases ht : (create_search_templates w.templStatus InitEsV2.templates).1 = true <;>
        simp [hc, ht] at h
    · simp [hr] at h
  exact ⟨hok, (mapping_ok_fingerprint _ hok).1, (mapping_ok_fingerprint _ hok).2⟩

/-- C10, witness: a full skip run that exits 0, with the matching final
fingerprint extracted through the theorem. -/
theorem c10_witness :
    (InitEsV2.main goodWorld false).1 = 0 ∧
    typeOf (InitEsV2.get_mapping_properties goodWorld.finalMappingResp) "centroid" =
      some "geo_point" ∧
    typeOf (InitEsV2.get_mapping_properties goodWorld.finalMappingResp) "address_parts" =
      some "nested" :=
  ⟨by decide, (c10_exit_zero_needs_matching_fingerprint goodWorld false (by decide)).2⟩
